import Mathlib

set_option maxRecDepth 10000

/-!
Verification of the EDI Document Reference Tool (`reference.py`).

The program is a static catalog of EDI document types plus three read-only
query/render operations (`list_standards`, `list_edi_documents`,
`search_edi_code`) and an argument-dispatch `main`.  This file embeds the
data model, the dataset and the three operations shallowly:

* Python strings become Lean `String`s (the dataset is ASCII apart from the
  arrows and bullets that are single code points in both languages, so
  `str.upper` / `str.lower` / `len` coincide with `Char.toUpper` /
  `Char.toLower` / `String.length`).
* Each `print(x)` call is recorded as the string `x` appended to an output
  list, keeping any embedded newlines.
* Python dicts are association lists in literal (insertion) order, which is
  the iteration order of `dict` in Python 3.7+.
* Python's `sorted` with the key `int(x) if x.isdigit() else x` can raise
  `TypeError` when an `int` key meets a `str` key; it is embedded as a
  stable insertion sort over a partial comparison returning `Option Bool`,
  where `none` models the `TypeError`.  On inputs where all comparisons are
  defined the two stable sorts agree; on a two-element mixed input both
  must perform the one failing comparison.
* `textwrap.fill(text, width=70, subsequent_indent='    ')` is embedded by
  the greedy wrap below, which agrees with `textwrap` on the dataset's
  descriptions (single-space-separated words, none longer than the width).
-/

/-- Python `needle in hay` (contiguous substring), prefix step. -/
def strStarts : List Char → List Char → Bool
  | [], _ => true
  | _ :: _, [] => false
  | a :: as, b :: bs => a == b && strStarts as bs

/-- Python `needle in hay` (contiguous substring), scanning the haystack. -/
def strContains (n : List Char) : List Char → Bool
  | [] => n.isEmpty
  | h :: hs => strStarts n (h :: hs) || strContains n hs

/-- Python `needle in hay` on strings. -/
def strInB (needle hay : String) : Bool := strContains needle.data hay.data

/-- Python `s.lower()` (the dataset and all compared text are ASCII). -/
def pyLower (s : String) : String := String.mk (s.data.map Char.toLower)

/-- Python `s.upper()` (the dataset and all compared text are ASCII). -/
def pyUpper (s : String) : String := String.mk (s.data.map Char.toUpper)

/-- Python `s.isdigit()`: non-empty and all characters digits. -/
def pyIsDigit (s : String) : Bool := !s.data.isEmpty && s.data.all Char.isDigit

/-- Python `int(s)` for a digit string. -/
def pyInt (s : String) : Nat := s.data.foldl (fun a c => 10 * a + (c.toNat - 48)) 0

/-- Python `a <= b` on strings: lexicographic by code point. -/
def charListLe : List Char → List Char → Bool
  | [], _ => true
  | _ :: _, [] => false
  | a :: as, b :: bs =>
    if a.val < b.val then true
    else if b.val < a.val then false
    else charListLe as bs

/-- The sort key of `list_edi_documents`: `int(x) if x.isdigit() else x`. -/
def pyKey (x : String) : Nat ⊕ String :=
  if pyIsDigit x then Sum.inl (pyInt x) else Sum.inr x

/-- Python `<=` on two sort keys.  Comparing an `int` key with a `str` key
raises `TypeError` in Python 3, embedded as `none`. -/
def pyLeOpt : Nat ⊕ String → Nat ⊕ String → Option Bool
  | Sum.inl a, Sum.inl b => some (decide (a ≤ b))
  | Sum.inr a, Sum.inr b => some (charListLe a.data b.data)
  | _, _ => none

/-- Insert into a sorted list under a partial comparison; `none` propagates
a comparison failure (Python `TypeError`). -/
def insertOpt (le : α → α → Option Bool) (x : α) : List α → Option (List α)
  | [] => some [x]
  | y :: ys =>
    match le x y with
    | none => none
    | some true => some (x :: y :: ys)
    | some false =>
      match insertOpt le x ys with
      | none => none
      | some zs => some (y :: zs)

/-- Stable insertion sort under a partial comparison (Python `sorted`,
which is also stable; the two agree whenever every comparison is defined). -/
def sortOpt (le : α → α → Option Bool) : List α → Option (List α)
  | [] => some []
  | x :: xs =>
    match sortOpt le xs with
    | none => none
    | some ys => insertOpt le x ys

/-- `sorted(codes, key=lambda x: (int(x) if x.isdigit() else x))`. -/
def sortCodes (codes : List String) : Option (List String) :=
  sortOpt (fun a b => pyLeOpt (pyKey a) (pyKey b)) codes

/-- `mapM` over `Option`, written out so proofs can unfold it. -/
def optionMapM (f : α → Option β) : List α → Option (List β)
  | [] => some []
  | a :: l =>
    match f a with
    | none => none
    | some b =>
      match optionMapM f l with
      | none => none
      | some bs => some (b :: bs)

/-- Greedy line filling, an auxiliary of `pyFill`. -/
def wrapGreedy (width : Nat) (indent cur : String) : List String → List String
  | [] => [cur]
  | w :: ws =>
    if (cur ++ " " ++ w).length ≤ width then
      wrapGreedy width indent (cur ++ " " ++ w) ws
    else
      cur :: wrapGreedy width indent (indent ++ w) ws

/-- Split a character list at spaces into (possibly empty) pieces, like
Python `s.split(' ')`. -/
def splitChar : List Char → List (List Char)
  | [] => [[]]
  | c :: cs =>
    if c = ' ' then [] :: splitChar cs
    else
      match splitChar cs with
      | [] => [[c]]
      | w :: ws => (c :: w) :: ws

/-- The whitespace-split word list `textwrap` wraps (dropping empty pieces). -/
def splitWords (s : String) : List String :=
  ((splitChar s.data).map String.mk).filter (fun w => w ≠ "")

/-- `textwrap.fill(s, width=70, subsequent_indent='    ')` for texts of
single-space-separated words none of which exceeds the width (true of every
description in the dataset). -/
def pyFill (s : String) : String :=
  match splitWords s with
  | [] => ""
  | w :: ws => String.intercalate "\n" (wrapGreedy 70 "    " w ws)

/-- Whether consecutive elements of a list all satisfy `le`, written as a
recursive Boolean so the kernel can evaluate it. -/
def chainLeB (le : α → α → Bool) : List α → Bool
  | [] => true
  | [_] => true
  | a :: b :: l => le a b && chainLeB le (b :: l)

/-- `class Industry(Enum)`: industry sectors for EDI documents. -/
inductive Industry
  | RETAIL
  | HEALTHCARE
  | MANUFACTURING
  | LOGISTICS
  | AUTOMOTIVE
  | TECHNOLOGY
  | FINANCE
deriving DecidableEq, Repr

/-- Python `ind.name` of an `Industry` member. -/
def Industry.pyName : Industry → String
  | .RETAIL => "RETAIL"
  | .HEALTHCARE => "HEALTHCARE"
  | .MANUFACTURING => "MANUFACTURING"
  | .LOGISTICS => "LOGISTICS"
  | .AUTOMOTIVE => "AUTOMOTIVE"
  | .TECHNOLOGY => "TECHNOLOGY"
  | .FINANCE => "FINANCE"

/-- `@dataclass EdiStandard`: metadata about an EDI standard. -/
structure EdiStandard where
  name : String
  latest_version : String
  region : String
  governing_body : String
  year_established : Nat
deriving DecidableEq, Repr

/-- `@dataclass EdiDocument`: complete metadata about an EDI document type. -/
structure EdiDocument where
  code : String
  name : String
  description : String
  common_versions : List String
  industries : List Industry
  direction : String
  transaction_flow : Option String := none
deriving DecidableEq, Repr

/-- The `STANDARDS` dict, in literal order. -/
def STANDARDS : List (String × EdiStandard) :=
  [("ANSI_X12",
    { name := "ANSI X12 (North American Standard)"
      latest_version := "6030"
      region := "North America"
      governing_body := "ANSI"
      year_established := 1979 }),
   ("EDIFACT",
    { name := "EDIFACT (International Standard)"
      latest_version := "D22B"
      region := "Global"
      governing_body := "UNECE"
      year_established := 1987 }),
   ("TRADACOMS",
    { name := "TRADACOMS (UK Retail Standard)"
      latest_version := "v3"
      region := "United Kingdom"
      governing_body := "GS1 UK"
      year_established := 1982 }),
   ("VDA",
    { name := "VDA (German Automotive Standard)"
      latest_version := "6.0"
      region := "Germany"
      governing_body := "VDA"
      year_established := 1977 }),
   ("ROSETTANET",
    { name := "RosettaNet (Technology Industry Standard)"
      latest_version := "02.00.00"
      region := "Global"
      governing_body := "GS1"
      year_established := 1998 })]

/-- `get_edi_documents()`: the complete dataset of EDI documents organized by
standard, each standard's dict as an association list `code ↦ document` in
literal order. -/
def get_edi_documents : List (String × List (String × EdiDocument)) :=
  [("ANSI X12 (North American Standard)",
    [("204",
      { code := "204", name := "Motor Carrier Load Tender"
        description := "A transportation order for shipping goods between locations"
        common_versions := ["4010", "4030", "5010", "6030"]
        industries := [.LOGISTICS, .MANUFACTURING]
        direction := "Outbound"
        transaction_flow := some "Shipper → Carrier" }),
     ("210",
      { code := "210", name := "Motor Carrier Freight Details and Invoice"
        description := "Detailed freight invoice from carrier to shipper"
        common_versions := ["4010", "5010", "6030"]
        industries := [.LOGISTICS]
        direction := "Inbound"
        transaction_flow := some "Carrier → Shipper" }),
     ("810",
      { code := "810", name := "Invoice"
        description := "Electronic invoice document for billing purposes"
        common_versions := ["4010", "5010", "6030"]
        industries := [.RETAIL, .MANUFACTURING, .HEALTHCARE]
        direction := "Both"
        transaction_flow := some "Supplier → Buyer or Service Provider → Client" }),
     ("820",
      { code := "820", name := "Payment Order/Remittance Advice"
        description := "Electronic funds transfer payment information"
        common_versions := ["4010", "5010", "6030"]
        industries := [.FINANCE, .RETAIL, .MANUFACTURING]
        direction := "Outbound"
        transaction_flow := some "Payer → Payee" }),
     ("834",
      { code := "834", name := "Benefit Enrollment and Maintenance"
        description := "Health insurance enrollment information exchange"
        common_versions := ["4010", "5010", "6030"]
        industries := [.HEALTHCARE]
        direction := "Both"
        transaction_flow := some "Employer → Insurance Carrier or Government Agency → Provider" }),
     ("850",
      { code := "850", name := "Purchase Order"
        description := "Buyer's formal request to purchase goods/services"
        common_versions := ["4010", "5010", "6030"]
        industries := [.RETAIL, .MANUFACTURING, .TECHNOLOGY]
        direction := "Outbound"
        transaction_flow := some "Buyer → Supplier" }),
     ("855",
      { code := "855", name := "Purchase Order Acknowledgment"
        description := "Supplier's response accepting or rejecting a PO"
        common_versions := ["4010", "5010", "6030"]
        industries := [.RETAIL, .MANUFACTURING]
        direction := "Inbound"
        transaction_flow := some "Supplier → Buyer" }),
     ("856",
      { code := "856", name := "Advance Shipping Notice"
        description := "Detailed shipment information prior to delivery"
        common_versions := ["4010", "5010", "6030"]
        industries := [.RETAIL, .MANUFACTURING, .LOGISTICS]
        direction := "Outbound"
        transaction_flow := some "Supplier → Buyer" }),
     ("940",
      { code := "940", name := "Warehouse Shipping Order"
        description := "Instruction to warehouse to ship goods"
        common_versions := ["4010", "5010", "6030"]
        industries := [.LOGISTICS, .RETAIL]
        direction := "Outbound"
        transaction_flow := some "Retailer → Warehouse" }),
     ("945",
      { code := "945", name := "Warehouse Shipping Advice"
        description := "Confirmation of warehouse shipment"
        common_versions := ["4010", "5010", "6030"]
        industries := [.LOGISTICS, .RETAIL]
        direction := "Inbound"
        transaction_flow := some "Warehouse → Retailer" }),
     ("997",
      { code := "997", name := "Functional Acknowledgment"
        description := "Technical confirmation of received EDI transmission"
        common_versions := ["4010", "5010", "6030"]
        industries := [.RETAIL, .MANUFACTURING, .HEALTHCARE]
        direction := "Both"
        transaction_flow := some "Between trading partners" })]),
   ("EDIFACT (International Standard)",
    [("DESADV",
      { code := "DESADV", name := "Dispatch Advice"
        description := "Notification of goods dispatched (similar to X12 856)"
        common_versions := ["D96A", "D00B", "D22B"]
        industries := [.LOGISTICS, .MANUFACTURING]
        direction := "Outbound"
        transaction_flow := some "Supplier → Buyer" }),
     ("IFCSUM",
      { code := "IFCSUM", name := "International Forwarding and Consolidation Summary"
        description := "Shipping consolidation details for international logistics"
        common_versions := ["D96A", "D00B", "D22B"]
        industries := [.LOGISTICS]
        direction := "Both"
        transaction_flow := some "Between logistics providers" }),
     ("INVOIC",
      { code := "INVOIC", name := "Invoice"
        description := "International invoice document for billing"
        common_versions := ["D96A", "D00B", "D22B"]
        industries := [.RETAIL, .MANUFACTURING]
        direction := "Outbound"
        transaction_flow := some "Supplier → Buyer" }),
     ("ORDERS",
      { code := "ORDERS", name := "Purchase Order"
        description := "International purchase order document"
        common_versions := ["D96A", "D00B", "D22B"]
        industries := [.RETAIL, .MANUFACTURING]
        direction := "Outbound"
        transaction_flow := some "Buyer → Supplier" }),
     ("ORDRSP",
      { code := "ORDRSP", name := "Order Response"
        description := "Response to a purchase order (acceptance/rejection)"
        common_versions := ["D96A", "D00B", "D22B"]
        industries := [.RETAIL, .MANUFACTURING]
        direction := "Inbound"
        transaction_flow := some "Supplier → Buyer" }),
     ("PRICAT",
      { code := "PRICAT", name := "Price/Sales Catalog"
        description := "Product catalog with pricing information"
        common_versions := ["D96A", "D00B", "D22B"]
        industries := [.RETAIL, .MANUFACTURING]
        direction := "Outbound"
        transaction_flow := some "Supplier → Buyer" }),
     ("RECADV",
      { code := "RECADV", name := "Receiving Advice"
        description := "Notification of goods received (similar to X12 861)"
        common_versions := ["D96A", "D00B", "D22B"]
        industries := [.RETAIL, .MANUFACTURING]
        direction := "Inbound"
        transaction_flow := some "Buyer → Supplier" })]),
   ("TRADACOMS (UK Retail Standard)",
    [("DELHDR",
      { code := "DELHDR", name := "Delivery Header"
        description := "Delivery instructions for UK retail orders"
        common_versions := ["v1", "v2", "v3"]
        industries := [.RETAIL]
        direction := "Outbound"
        transaction_flow := some "Supplier → Retailer" }),
     ("INVFIL",
      { code := "INVFIL", name := "Invoice File"
        description := "UK retail-specific invoice format"
        common_versions := ["v1", "v2", "v3"]
        industries := [.RETAIL]
        direction := "Outbound"
        transaction_flow := some "Supplier → Retailer" }),
     ("ORDHDR",
      { code := "ORDHDR", name := "Order Header"
        description := "UK retail purchase order document"
        common_versions := ["v1", "v2", "v3"]
        industries := [.RETAIL]
        direction := "Outbound"
        transaction_flow := some "Retailer → Supplier" }),
     ("ORDCHG",
      { code := "ORDCHG", name := "Order Change"
        description := "Modification to an existing purchase order"
        common_versions := ["v1", "v2", "v3"]
        industries := [.RETAIL]
        direction := "Both"
        transaction_flow := some "Between retailer and supplier" })]),
   ("VDA (German Automotive Standard)",
    [("4905",
      { code := "4905", name := "Delivery Schedule"
        description := "Just-in-time delivery schedule for automotive manufacturing"
        common_versions := ["4.3", "5.0", "6.0"]
        industries := [.AUTOMOTIVE]
        direction := "Outbound"
        transaction_flow := some "OEM → Supplier" }),
     ("4913",
      { code := "4913", name := "Invoice"
        description := "Automotive industry-specific invoice format"
        common_versions := ["4.3", "5.0", "6.0"]
        industries := [.AUTOMOTIVE]
        direction := "Outbound"
        transaction_flow := some "Supplier → OEM" }),
     ("4981",
      { code := "4981", name := "Shipping Notification"
        description := "Advanced shipping notice for automotive parts"
        common_versions := ["4.3", "5.0", "6.0"]
        industries := [.AUTOMOTIVE]
        direction := "Outbound"
        transaction_flow := some "Supplier → OEM" })]),
   ("RosettaNet (Technology Industry Standard)",
    [("3A4",
      { code := "3A4", name := "Purchase Order"
        description := "High-tech industry purchase order"
        common_versions := ["02.00.00"]
        industries := [.TECHNOLOGY]
        direction := "Outbound"
        transaction_flow := some "Buyer → Supplier" }),
     ("3A8",
      { code := "3A8", name := "Purchase Order Change"
        description := "Modification to a technology purchase order"
        common_versions := ["02.00.00"]
        industries := [.TECHNOLOGY]
        direction := "Both"
        transaction_flow := some "Between trading partners" }),
     ("3B2",
      { code := "3B2", name := "Shipping Notification"
        description := "Advanced shipping notice for technology products"
        common_versions := ["02.00.00"]
        industries := [.TECHNOLOGY]
        direction := "Outbound"
        transaction_flow := some "Supplier → Buyer" }),
     ("4B2",
      { code := "4B2", name := "Advance Shipment Notification"
        description := "Detailed shipment information for technology supply chain"
        common_versions := ["02.00.00"]
        industries := [.TECHNOLOGY]
        direction := "Outbound"
        transaction_flow := some "Supplier → Buyer" })])]

/-- The line `print(f"\nSupported EDI Standards:\n")` header of `list_standards`. -/
def standardsHeader : String := "\nSupported EDI Standards:\n"

/-- The bullet line `print(f"• {std.name}")`. -/
def stdBullet (nm : String) : String := s!"• {nm}"

/-- `list_standards(detailed)`: the sequence of `print` arguments. -/
def list_standards (detailed : Bool) : List String :=
  standardsHeader ::
    STANDARDS.flatMap (fun kv =>
      stdBullet kv.2.name ::
        (if detailed then
          [s!"  - Latest Version: {kv.2.latest_version}",
           s!"  - Region: {kv.2.region}",
           s!"  - Governing Body: {kv.2.governing_body}",
           s!"  - Established: {kv.2.year_established}\n"]
        else []))

/-- The header line `print(f"== {standard} ==")`. -/
def stdHeader (std : String) : String := s!"== {std} =="

/-- The divider line `print(f"{'-' * (len(standard) + 4)}\n")`. -/
def stdDivider (std : String) : String :=
  String.mk (List.replicate (std.length + 4) '-') ++ "\n"

/-- The bullet line `print(f"• {code}: {doc.name}")`. -/
def bulletLine (code nm : String) : String := s!"• {code}: {nm}"

/-- The per-document block of both `list_edi_documents` and
`search_edi_code`: direction, optional flow, versions, industries and the
wrapped description (its print argument ends in a newline). -/
def docBlock (code : String) (doc : EdiDocument) : List String :=
  [bulletLine code doc.name, s!"  Direction: {doc.direction}"]
  ++ (match doc.transaction_flow with
      | some t => [s!"  Flow: {t}"]
      | none => [])
  ++ ["  Versions: " ++ String.intercalate ", " doc.common_versions,
      "  Industries: " ++ String.intercalate ", " (doc.industries.map Industry.pyName),
      "  Description: " ++ pyFill doc.description ++ "\n"]

/-- The industry filter of `list_edi_documents`: a document survives when no
filter is given (`None`, or `""` which is falsy in Python) or some industry
name contains the lowercased filter. -/
def indKeep (fi : Option String) (doc : EdiDocument) : Bool :=
  match fi with
  | none => true
  | some f =>
    if f = "" then true
    else doc.industries.any (fun i => strInB (pyLower f) (pyLower i.pyName))

/-- A standard's documents in the order `list_edi_documents` visits them:
`sorted(docs.keys(), key=...)`, each code looked up in the dict.  The
`none` branch of the lookup is unreachable (the sorted codes are exactly
the dict's keys; Python would raise `KeyError`). -/
def stdDocsSorted (docs : List (String × EdiDocument)) :
    Option (List (String × EdiDocument)) :=
  match sortCodes (docs.map Prod.fst) with
  | none => none
  | some codes =>
    some (codes.flatMap (fun code =>
      match docs.lookup code with
      | none => []
      | some doc => [(code, doc)]))

/-- One standard's section of `list_edi_documents`: header, divider, then
each surviving document's block.  The loop's `continue` on a filtered-out
document is rendered as a `filter`. -/
def renderStd (fi : Option String) (kv : String × List (String × EdiDocument)) :
    Option (List String) :=
  match stdDocsSorted kv.2 with
  | none => none
  | some l =>
    some (stdHeader kv.1 :: stdDivider kv.1 ::
      (l.filter (fun p => indKeep fi p.2)).flatMap (fun p => docBlock p.1 p.2))

/-- The header `print("\nEDI Document Reference:\n")`. -/
def listHeader : String := "\nEDI Document Reference:\n"

/-- The standards that survive the standard filter:
`{k: v for k, v in edi_docs.items() if filter_standard.lower() in k.lower()}`. -/
def matchedStds (s : String) : List (String × List (String × EdiDocument)) :=
  get_edi_documents.filter (fun kv => strInB (pyLower s) (pyLower kv.1))

/-- The message `print(f"\nNo standards found matching '{filter_standard}'")`. -/
def noStdMsg (s : String) : String := s!"\nNo standards found matching '{s}'"

/-- The body of the listing once the standards to show are fixed. -/
def renderAll (docs : List (String × List (String × EdiDocument)))
    (fi : Option String) : Option (List String) :=
  match optionMapM (renderStd fi) docs with
  | none => none
  | some blocks => some (listHeader :: blocks.flatten)

/-- `list_edi_documents(filter_standard, filter_industry)`: the sequence of
`print` arguments, or `none` when the mixed-key sort raises `TypeError`.
A `filter_standard` of `""` is falsy in Python, so it disables the filter. -/
def list_edi_documents (fs fi : Option String) : Option (List String) :=
  match fs with
  | none => renderAll get_edi_documents fi
  | some s =>
    if s = "" then renderAll get_edi_documents fi
    else
      if (matchedStds s).isEmpty then some [noStdMsg s]
      else renderAll (matchedStds s) fi

/-- The `(standard, code, document)` triples of `list_edi_documents`, one per
printed document block, in print order: the same traversal as `renderStd`
projected away from text formatting. -/
def stdTriples (fi : Option String) (kv : String × List (String × EdiDocument)) :
    Option (List (String × String × EdiDocument)) :=
  match stdDocsSorted kv.2 with
  | none => none
  | some l =>
    some ((l.filter (fun p => indKeep fi p.2)).map (fun p => (kv.1, p.1, p.2)))

/-- The `(standard, code, document)` triples printed by
`list_edi_documents`, across all surviving standards. -/
def listDocsTriples (fs fi : Option String) :
    Option (List (String × String × EdiDocument)) :=
  match fs with
  | none => (optionMapM (stdTriples fi) get_edi_documents).map List.flatten
  | some s =>
    if s = "" then (optionMapM (stdTriples fi) get_edi_documents).map List.flatten
    else
      if (matchedStds s).isEmpty then some []
      else (optionMapM (stdTriples fi) (matchedStds s)).map List.flatten

/-- Every `(standard, code, document)` triple of the dataset, in dataset
(insertion) order: the iteration order of `search_edi_code`. -/
def datasetTriples : List (String × String × EdiDocument) :=
  get_edi_documents.flatMap (fun kv => kv.2.map (fun p => (kv.1, p.1, p.2)))

/-- The matches of `search_edi_code`: `code in doc_code or show_all`, with
the input uppercased first. -/
def searchTriples (code : String) (show_all : Bool) :
    List (String × String × EdiDocument) :=
  datasetTriples.filter (fun t => strInB (pyUpper code) t.2.1 || show_all)

/-- The header `print(f"\nSearch Results for '{code}':\n")` (after upper()). -/
def searchHeaderLine (c : String) : String := s!"\nSearch Results for '{c}':\n"

/-- The message `print(f"No EDI documents found matching '{code}'")`. -/
def noDocMsg (c : String) : String := s!"No EDI documents found matching '{c}'"

/-- `search_edi_code(code, show_all)`: the sequence of `print` arguments.
Each match repeats the standard header (no divider); the `found` flag is
true exactly when the match list is non-empty. -/
def search_edi_code (code : String) (show_all : Bool) : List String :=
  searchHeaderLine (pyUpper code) ::
    ((searchTriples code show_all).flatMap
        (fun t => stdHeader t.1 :: docBlock t.2.1 t.2.2)
      ++ (if (searchTriples code show_all).isEmpty then
            [noDocMsg (pyUpper code)]
          else []))

/-- The parsed argparse namespace: `standard`, `industry` and `code` default
to `None`; the three flags default to `False`. -/
structure Args where
  standard : Option String := none
  industry : Option String := none
  code : Option String := none
  all : Bool := false
  list_standards : Bool := false
  detailed : Bool := false
deriving DecidableEq, Repr

/-- The operation `main` dispatches to, with its arguments. -/
inductive CliAction
  | listStandardsAct (detailed : Bool)
  | searchAct (code : String) (all : Bool)
  | listDocsAct (fs fi : Option String)
deriving DecidableEq, Repr

/-- The dispatch of `main`: `if args.list_standards: ... elif args.code: ...
else: ...`.  `elif args.code:` tests Python truthiness, so `None` and the
empty string both fall through to the document listing. -/
def mainSelect (a : Args) : CliAction :=
  if a.list_standards then .listStandardsAct a.detailed
  else
    match a.code with
    | some c => if c = "" then .listDocsAct a.standard a.industry
                else .searchAct c a.all
    | none => .listDocsAct a.standard a.industry

/-- Modelled from the spec's words for the refinement claim about `main`:
branch (2) fires whenever a code value is present, with no emptiness test. -/
def specSelect (a : Args) : CliAction :=
  if a.list_standards then .listStandardsAct a.detailed
  else
    match a.code with
    | some c => .searchAct c a.all
    | none => .listDocsAct a.standard a.industry

theorem insertOpt_isSome {α : Type} (le : α → α → Option Bool) (x : α)
    (l : List α) (h : ∀ y ∈ l, (le x y).isSome = true) :
    (insertOpt le x l).isSome = true := by
  induction l with
  | nil => rfl
  | cons y ys ih =>
    have hy := h y (List.mem_cons_self y ys)
    cases hxy : le x y with
    | none => rw [hxy] at hy; simp at hy
    | some b =>
      cases b with
      | true => simp [insertOpt, hxy]
      | false =>
        have hrec := ih (fun z hz => h z (List.mem_cons_of_mem _ hz))
        cases hzs : insertOpt le x ys with
        | none => rw [hzs] at hrec; simp at hrec
        | some zs => simp [insertOpt, hxy, hzs]

theorem insertOpt_subset {α : Type} (le : α → α → Option Bool) (x : α)
    (l zs : List α) (h : insertOpt le x l = some zs) :
    ∀ z ∈ zs, z = x ∨ z ∈ l := by
  induction l generalizing zs with
  | nil =>
    simp [insertOpt] at h
    subst h
    simp
  | cons y ys ih =>
    intro z hz
    cases hxy : le x y with
    | none => simp [insertOpt, hxy] at h
    | some b =>
      cases b with
      | true =>
        simp [insertOpt, hxy] at h
        subst h
        simpa [List.mem_cons] using hz
      | false =>
        cases hws : insertOpt le x ys with
        | none => simp [insertOpt, hxy, hws] at h
        | some ws =>
          simp [insertOpt, hxy, hws] at h
          subst h
          rcases List.mem_cons.mp hz with hz | hz
          · exact Or.inr (by simp [hz])
          · rcases ih ws hws z hz with h' | h'
            · exact Or.inl h'
            · exact Or.inr (List.mem_cons_of_mem _ h')

theorem sortOpt_subset {α : Type} (le : α → α → Option Bool)
    (l ys : List α) (h : sortOpt le l = some ys) :
    ∀ y ∈ ys, y ∈ l := by
  induction l generalizing ys with
  | nil =>
    simp [sortOpt] at h
    subst h
    simp
  | cons x xs ih =>
    intro y hy
    cases hs : sortOpt le xs with
    | none => simp [sortOpt, hs] at h
    | some zs =>
      simp [sortOpt, hs] at h
      rcases insertOpt_subset le x zs ys h y hy with h' | h'
      · simp [h']
      · exact List.mem_cons_of_mem _ (ih zs hs y h')

theorem sortOpt_isSome {α : Type} (le : α → α → Option Bool) (l : List α)
    (h : ∀ a ∈ l, ∀ b ∈ l, (le a b).isSome = true) :
    (sortOpt le l).isSome = true := by
  induction l with
  | nil => rfl
  | cons x xs ih =>
    have hrec := ih (fun a ha b hb =>
      h a (List.mem_cons_of_mem _ ha) b (List.mem_cons_of_mem _ hb))
    cases hs : sortOpt le xs with
    | none => rw [hs] at hrec; simp at hrec
    | some ys =>
      have : (insertOpt le x ys).isSome = true := by
        apply insertOpt_isSome
        intro y hy
        exact h x (List.mem_cons_self x xs) y
          (List.mem_cons_of_mem _ (sortOpt_subset le xs ys hs y hy))
      simpa [sortOpt, hs] using this

/-- C1: the document-listing sort key is claimed total and well-defined even
for mixed numeric and alphabetic code strings.  It is not: Python 3 raises
`TypeError` when the comparison meets an `int` key and a `str` key, so
sorting the two-element mixed list `["1", "A"]` fails (any comparison sort
must compare the two).  The embedded sort returns `none` there. -/
theorem c1_mixed_sort_fails_counterexample : sortCodes ["1", "A"] = none := by
  decide

/-- C1 (amended): the mixed-key sort of `list_edi_documents` succeeds on
every list of codes that is homogeneous — all codes numeric or all codes
non-numeric, as each standard's codes are in the dataset — but the key
function does not make cross-type comparisons well-defined. -/
theorem c1_homogeneous_sort_succeeds (l : List String)
    (h : (∀ x ∈ l, pyIsDigit x = true) ∨ (∀ x ∈ l, pyIsDigit x = false)) :
    (sortCodes l).isSome = true := by
  apply sortOpt_isSome
  intro a ha b hb
  rcases h with h | h
  · simp [pyKey, h a ha, h b hb, pyLeOpt]
  · simp [pyKey, h a ha, h b hb, pyLeOpt]

/-- Witness for C1 (amended): the ANSI X12 code list of the dataset is all
numeric and its sort succeeds. -/
theorem c1_homogeneous_sort_succeeds_witness :
    (∀ x ∈ (get_edi_documents.getD 0 ("", [])).2.map Prod.fst,
      pyIsDigit x = true) ∧
    (sortCodes ((get_edi_documents.getD 0 ("", [])).2.map Prod.fst)).isSome
      = true :=
  ⟨by decide, c1_homogeneous_sort_succeeds _ (Or.inl (by decide))⟩

/-- C3: `search_edi_code("ZZZZ", False)` is claimed to print only the "no
documents found" message; in fact it first prints the fixed
"Search Results for 'ZZZZ':" header line. -/
theorem c3_only_message_counterexample :
    search_edi_code "ZZZZ" false ≠ [noDocMsg "ZZZZ"] := by decide

/-- C3 (amended): for every input code with zero matches across the dataset
(and `show_all = False`), `search_edi_code` prints exactly the search-results
header line followed by the single "no documents found" message, and nothing
else (no document blocks). -/
theorem c3_no_match_prints_header_and_message (c : String)
    (h : searchTriples c false = []) :
    search_edi_code c false =
      [searchHeaderLine (pyUpper c), noDocMsg (pyUpper c)] := by
  simp [search_edi_code, h]

/-- Witness for C3 (amended): the code "ZZZZ" has zero matches and produces
exactly the header and the message. -/
theorem c3_no_match_witness :
    searchTriples "ZZZZ" false = [] ∧
    search_edi_code "ZZZZ" false =
      [searchHeaderLine (pyUpper "ZZZZ"), noDocMsg (pyUpper "ZZZZ")] :=
  ⟨by decide, c3_no_match_prints_header_and_message "ZZZZ" (by decide)⟩

/-- C8: when the standard filter matches no standard's display name as a
case-insensitive substring, `list_edi_documents` prints exactly the single
"no standards found" message and nothing else.  (A filter of `""` is outside
the hypothesis: it matches every name, so `matchedStds ""` is non-empty.) -/
theorem c8_no_standards_only_message (s : String) (fi : Option String)
    (h : (matchedStds s).isEmpty = true) :
    list_edi_documents (some s) fi = some [noStdMsg s] := by
  by_cases hs : s = ""
  · subst hs
    exact absurd h (by decide)
  · simp [list_edi_documents, hs, h]

/-- Witness for C8: `list_edi_documents("nonexistent-xyz", None)` produces
only the "no standards found" message. -/
theorem c8_no_standards_only_message_witness :
    (matchedStds "nonexistent-xyz").isEmpty = true ∧
    list_edi_documents (some "nonexistent-xyz") none =
      some [noStdMsg "nonexistent-xyz"] :=
  ⟨by decide, c8_no_standards_only_message "nonexistent-xyz" none (by decide)⟩

/-- C9: the claim that any present `-c` code value triggers the search is
false for the empty string: `elif args.code:` tests Python truthiness, so
`-c ""` falls through to the document listing instead of the search. -/
theorem c9_dispatch_counterexample :
    mainSelect { code := some "" } ≠ specSelect { code := some "" } := by
  decide

/-- C9 (amended): the dispatch of `main` is total, with fixed priority: the
list-standards flag wins; otherwise a present non-empty code value triggers
the search with that code and the show-all flag; otherwise (code absent or
empty) the document listing runs with the optional filters.  No flag
combination is rejected: `mainSelect` maps every `Args` to an action. -/
theorem c9_dispatch_priority (a : Args) :
    (a.list_standards = true → mainSelect a = .listStandardsAct a.detailed) ∧
    (∀ c : String, a.list_standards = false → a.code = some c → c ≠ "" →
      mainSelect a = .searchAct c a.all) ∧
    (a.list_standards = false → (a.code = none ∨ a.code = some "") →
      mainSelect a = .listDocsAct a.standard a.industry) := by
  refine ⟨?_, ?_, ?_⟩
  · intro h
    simp [mainSelect, h]
  · intro c h hc hne
    simp [mainSelect, h, hc, hne]
  · intro h hc
    rcases hc with hc | hc <;> simp [mainSelect, h, hc]

/-- Witness for C9 (amended): a non-empty code value selects the search. -/
theorem c9_dispatch_priority_witness :
    mainSelect { code := some "850" } = .searchAct "850" false :=
  (c9_dispatch_priority { code := some "850" }).2.1 "850" rfl rfl (by decide)

/-- C2: for every standard S and document D of the dataset, searching for
D's exact code with `show_all = False` yields at least one match under S
whose printed code is exactly D's code (the bullet line prints the dict key,
equal to `D.code` throughout the dataset) and whose printed name is exactly
D's name: the uppercased input equals the code, which is a substring of
itself.  The match triple itself, the repeated standard header and the
bullet line are all in the printed output. -/
theorem c2_exact_code_search_finds_document :
    ∀ t ∈ datasetTriples,
      t ∈ searchTriples t.2.1 false ∧
      stdHeader t.1 ∈ search_edi_code t.2.1 false ∧
      bulletLine t.2.1 t.2.2.name ∈ search_edi_code t.2.1 false := by
  decide

/-- Witness for C2: searching "3A4" finds the RosettaNet purchase order. -/
theorem c2_exact_code_search_finds_document_witness :
    ("RosettaNet (Technology Industry Standard)", "3A4",
      ({ code := "3A4", name := "Purchase Order"
         description := "High-tech industry purchase order"
         common_versions := ["02.00.00"], industries := [.TECHNOLOGY]
         direction := "Outbound"
         transaction_flow := some "Buyer → Supplier" } : EdiDocument)) ∈
      searchTriples "3A4" false ∧
    stdHeader "RosettaNet (Technology Industry Standard)" ∈
      search_edi_code "3A4" false ∧
    bulletLine "3A4" "Purchase Order" ∈ search_edi_code "3A4" false :=
  c2_exact_code_search_finds_document _ (by decide)

/-- C4: `list_edi_documents(None, None)` succeeds (no sort failure), prints
the header and divider of every standard in the dataset, and within each
standard the printed documents are in non-decreasing order of the mixed
key: consecutive codes are either both all-digits and ordered by integer
value, or both non-numeric and ordered lexically by code point. -/
theorem c4_unfiltered_listing_blocks_and_order :
    (list_edi_documents none none).isSome = true ∧
    (∀ kv ∈ get_edi_documents,
      stdHeader kv.1 ∈ (list_edi_documents none none).getD [] ∧
      stdDivider kv.1 ∈ (list_edi_documents none none).getD []) ∧
    (∀ kv ∈ get_edi_documents,
      (stdTriples none kv).isSome = true ∧
      chainLeB
        (fun a b =>
          (pyIsDigit a.2.1 && pyIsDigit b.2.1
              && decide (pyInt a.2.1 ≤ pyInt b.2.1))
            || (!pyIsDigit a.2.1 && !pyIsDigit b.2.1
              && charListLe a.2.1.data b.2.1.data))
        ((stdTriples none kv).getD []) = true) := by
  decide

/-- C5: when `show_all` is true every document matches regardless of the
code argument, and `search_edi_code("", True)` lists the whole dataset: the
match list is exactly the dataset's `(standard, code, document)` triples in
dataset order, and those triples are pairwise distinct, so each pair is
printed exactly once, one block per triple after the header line. -/
theorem c5_show_all_matches_everything :
    (∀ c : String, searchTriples c true = datasetTriples) ∧
    datasetTriples.Nodup ∧
    search_edi_code "" true =
      searchHeaderLine (pyUpper "") ::
        datasetTriples.flatMap (fun t => stdHeader t.1 :: docBlock t.2.1 t.2.2) := by
  refine ⟨?_, by decide, by decide⟩
  intro c
  simp [searchTriples]

/-- C10: the empty string is a Python substring of every code, so
`search_edi_code("", False)` also matches and prints the entire dataset —
the show-all flag is not the only way to reach the full dump. -/
theorem c10_empty_code_matches_everything :
    searchTriples "" false = datasetTriples ∧
    (∀ t ∈ datasetTriples, strInB (pyUpper "") t.2.1 = true) ∧
    search_edi_code "" false =
      searchHeaderLine (pyUpper "") ::
        datasetTriples.flatMap (fun t => stdHeader t.1 :: docBlock t.2.1 t.2.2) := by
  refine ⟨by decide, by decide, by decide⟩

/-- C7: the standard filter is claimed case-insensitive for every pair of
filters differing only in case.  The selection is, but the "no standards
found" message echoes the filter verbatim, so two casings that match no
standard produce different output. -/
theorem c7_case_counterexample :
    list_edi_documents (some "qq") none ≠ list_edi_documents (some "QQ") none := by
  decide

/-- C7 (amended): two standard filters with the same lowercasing produce
identical `list_edi_documents` output whenever the filter matches at least
one standard (in particular "x12" vs "X12"); only the no-match message
distinguishes casings, by echoing the filter verbatim. -/
theorem c7_case_insensitive_when_matching (s1 s2 : String) (fi : Option String)
    (hl : pyLower s1 = pyLower s2)
    (hm : (matchedStds s1).isEmpty = false) :
    list_edi_documents (some s1) fi = list_edi_documents (some s2) fi := by
  have hms : matchedStds s1 = matchedStds s2 := by
    unfold matchedStds
    rw [hl]
  have hdata : s1.data.map Char.toLower = s2.data.map Char.toLower := by
    simpa [pyLower] using congrArg String.data hl
  by_cases hs : s1 = ""
  · have hs2 : s2 = "" := by
      apply String.ext
      have h2 : s2.data.map Char.toLower = [] := by rw [← hdata, hs]; rfl
      simp [List.map_eq_nil_iff.mp h2]
    rw [hs, hs2]
  · have hs2 : s2 ≠ "" := by
      intro h2
      apply hs
      apply String.ext
      have h1 : s1.data.map Char.toLower = [] := by rw [hdata, h2]; rfl
      simp [List.map_eq_nil_iff.mp h1]
    have hm2 : (matchedStds s2).isEmpty = false := by rw [← hms]; exact hm
    simp [list_edi_documents, hs, hs2, hm, hm2, hms]

/-- Witness for C7 (amended): `list_edi_documents("x12", None)` and
`list_edi_documents("X12", None)` yield identical output. -/
theorem c7_case_insensitive_witness :
    list_edi_documents (some "x12") none = list_edi_documents (some "X12") none :=
  c7_case_insensitive_when_matching "x12" "X12" none (by decide) (by decide)

theorem optionMapM_congr {α β : Type} (g₁ g₂ : α → Option β) (l : List α)
    (h : ∀ a ∈ l, g₁ a = g₂ a) : optionMapM g₁ l = optionMapM g₂ l := by
  induction l with
  | nil => rfl
  | cons a l ih =>
    simp only [optionMapM]
    rw [h a (List.mem_cons_self a l),
      ih (fun b hb => h b (List.mem_cons_of_mem _ hb))]

theorem optionMapM_comp_map {α β γ : Type} (h : β → γ) (g : α → Option β)
    (l : List α) :
    optionMapM (fun a => Option.map h (g a)) l =
      (optionMapM g l).map (List.map h) := by
  induction l with
  | nil => rfl
  | cons a l ih =>
    cases hga : g a with
    | none => simp [optionMapM, hga]
    | some b =>
      cases hrec : optionMapM g l with
      | none => simp [optionMapM, hga, hrec, ih]
      | some bs => simp [optionMapM, hga, hrec, ih]

theorem flatten_map_filter {β : Type} (p : β → Bool) (L : List (List β)) :
    (L.map (List.filter p)).flatten = L.flatten.filter p := by
  induction L with
  | nil => rfl
  | cons bs L ih =>
    rw [List.map_cons, List.flatten_cons, List.flatten_cons,
      List.filter_append, ih]

theorem stdTriples_filter (f : String) (hf : f ≠ "")
    (kv : String × List (String × EdiDocument)) :
    stdTriples (some f) kv =
      Option.map
        (List.filter (fun t =>
          t.2.2.industries.any (fun i => strInB (pyLower f) (pyLower i.pyName))))
        (stdTriples none kv) := by
  unfold stdTriples
  cases stdDocsSorted kv.2 with
  | none => rfl
  | some l =>
    simp only [Option.map]
    congr 1
    rw [show (fun p : String × EdiDocument => indKeep none p.2)
        = (fun _ => true) from rfl,
      List.filter_true, List.filter_map]
    apply congrArg
    apply List.filter_congr
    intro p hp
    simp [indKeep, hf, Function.comp]

/-- C6: under a (non-empty) industry filter the listing keeps exactly the
documents some of whose industry names contain the lowercased filter as a
substring — the filtered triple list is the unfiltered one filtered by that
predicate — and concretely the filter "healthcare" keeps exactly ANSI X12
810, 834 and 997, while every standard (even one with no surviving
documents) still prints its header and divider lines. -/
theorem c6_industry_filter_skips_exactly (f : String) (hf : f ≠ "") :
    listDocsTriples none (some f) =
      Option.map
        (List.filter (fun t =>
          t.2.2.industries.any (fun i => strInB (pyLower f) (pyLower i.pyName))))
        (listDocsTriples none none) ∧
    (listDocsTriples none (some "healthcare")).map
        (List.map (fun t => (t.1, t.2.1))) =
      some [("ANSI X12 (North American Standard)", "810"),
        ("ANSI X12 (North American Standard)", "834"),
        ("ANSI X12 (North American Standard)", "997")] ∧
    ∀ kv ∈ get_edi_documents,
      stdHeader kv.1 ∈ (list_edi_documents none (some "healthcare")).getD [] ∧
      stdDivider kv.1 ∈ (list_edi_documents none (some "healthcare")).getD [] := by
  refine ⟨?_, by decide, by decide⟩
  show (optionMapM (stdTriples (some f)) get_edi_documents).map List.flatten =
    Option.map _ ((optionMapM (stdTriples none) get_edi_documents).map List.flatten)
  rw [optionMapM_congr _ _ _ (fun kv _ => stdTriples_filter f hf kv),
    optionMapM_comp_map]
  generalize optionMapM (stdTriples none) get_edi_documents = o
  cases o with
  | none => rfl
  | some L =>
    show some ((L.map (List.filter _)).flatten) = some (L.flatten.filter _)
    rw [flatten_map_filter]

/-- Witness for C6: the filter "healthcare" instantiates the skip-exactly
equation. -/
theorem c6_industry_filter_witness :
    listDocsTriples none (some "healthcare") =
      Option.map
        (List.filter (fun t =>
          t.2.2.industries.any
            (fun i => strInB (pyLower "healthcare") (pyLower i.pyName))))
        (listDocsTriples none none) :=
  (c6_industry_filter_skips_exactly "healthcare" (by decide)).1
